import Mathlib

/-!
# Verification of the prenlp dataset loaders (`prenlp/data/dataset/language_modeling.py`)

Shallow embedding of the three loader classes `WikiText2`, `WikiText103` and
`WikiTextKo`.  Files are modelled as lists of raw line strings; the filesystem,
the HTTP downloads and the external extraction process are modelled as explicit
parameters; Python exceptions are modelled with `Except`.
-/

/-- Errors that the Python runtime can raise on the paths the loaders exercise:
a missing file, a unicode decode failure while reading, or a JSON parse /
key-lookup failure in `json.loads(line)['text']`. -/
inductive PyError where
  | fileNotFound : String → PyError
  | decodeError : String → PyError
  | jsonError : String → PyError
deriving DecidableEq

deriving instance DecidableEq for Except

/-- Path join, modelling `Path(a) / b` on POSIX: join with a single
separator. -/
def pjoin (a b : String) : String := a ++ "/" ++ b

/-- The characters Python's `str.strip()` removes (ASCII whitespace; the
loaders' data is ASCII/UTF-8 text where these are the relevant cases). -/
def isPySpace (c : Char) : Bool :=
  c = ' ' || c = '\t' || c = '\n' || c = '\r' || c = '\x0b' || c = '\x0c'

/-- Model of Python's `line.strip()`: drop leading and trailing whitespace. -/
def pyStrip (s : String) : String :=
  String.mk (((s.toList.dropWhile isPySpace).reverse.dropWhile isPySpace).reverse)

/-- Model of Python's `text.split('\n')` on the character list: split at every
newline, producing one (possibly empty) piece per gap. -/
def splitOnNl : List Char → List (List Char)
  | [] => [[]]
  | c :: cs =>
    if c = '\n' then [] :: splitOnNl cs
    else
      match splitOnNl cs with
      | [] => [[c]]
      | p :: ps => (c :: p) :: ps

/-- Model of Python's `text.split('\n')` on strings. -/
def pySplitNl (s : String) : List String := (splitOnNl s.toList).map String.mk

/-- Model of the filesystem state the loaders touch:
`dirExists p` models `Path(p).exists()`;
`readLines p` models `open(p).readlines()` (a list of raw lines, or the
exception the read raises);
`glob d` models `Path(d).glob('**/wiki_*')`, the filenames the filesystem
enumerates under `d` in an unspecified order. -/
structure FileSystem where
  dirExists : String → Bool
  readLines : String → Except PyError (List String)
  glob : String → List String

/-- Model of Python's `json.loads(line)['text']`: the stdlib JSON decoder is
not part of this repository, so it is abstracted as an oracle taking the raw
line to its `"text"` field, or to the error the decode raises. -/
structure JsonOracle where
  loadsText : String → Except PyError String

/-- Lexicographic comparison of code-point lists, as Python compares
strings. -/
def pyLeChars : List Char → List Char → Bool
  | [], _ => true
  | _ :: _, [] => false
  | a :: as, b :: bs =>
    if a.toNat < b.toNat then true
    else if b.toNat < a.toNat then false
    else pyLeChars as bs

/-- Model of Python's `<=` on strings: lexicographic by code point. -/
def pyLe (a b : String) : Bool := pyLeChars a.toList b.toList

/-- Model of Python's `sorted` on a list of strings.  `sorted` returns the
unique permutation of its input that is sorted for the total order `pyLe`, so
any sorting algorithm computes the same function; insertion sort is used
here. -/
def pySorted (l : List String) : List String :=
  List.insertionSort (fun a b => pyLe a b = true) l

/-- Constant `self.dirname` of `WikiText2`. -/
def WikiText2.dirname : String := "wikitext-2"

/-- Constant `self.skip_empty` as set (unconditionally) in
`WikiText2.__init__`. -/
def WikiText2.skip_empty : Bool := true

/-- Default argument `train='wiki.train.tokens'` of `_get_data`. -/
def wikiTrain : String := "wiki.train.tokens"

/-- Default argument `valid='wiki.valid.tokens'` of `_get_data`. -/
def wikiValid : String := "wiki.valid.tokens"

/-- Default argument `test='wiki.test.tokens'` of `_get_data`. -/
def wikiTest : String := "wiki.test.tokens"

/-- Loop body of `WikiText2._get_data`: iterate over the three split
filenames, read each file, strip every line (skipping the ones that are empty
after stripping when `sk` is set), and append the sample list to `dataset`. -/
def wt2Loop (fs : FileSystem) (sk : Bool) (dir : String) :
    List String → List (List String) → Except PyError (List (List String))
  | [], dataset => .ok dataset
  | data :: rest, dataset =>
    match fs.readLines (pjoin dir data) with
    | .error e => .error e
    | .ok lines =>
      let samples :=
        if sk then
          lines.filterMap (fun line =>
            if pyStrip line = "" then none else some (pyStrip line))
        else lines.map pyStrip
      wt2Loop fs sk dir rest (dataset ++ [samples])

/-- Method `WikiText2._get_data` (the default arguments `train`/`valid`/`test`
are explicit parameters here; `sk` is `self.skip_empty`). -/
def WikiText2.getData (fs : FileSystem) (root : String) (sk : Bool)
    (train valid test : String) : Except PyError (List (List String)) :=
  wt2Loop fs sk (pjoin root WikiText2.dirname) [train, valid, test] []

/-- Method `WikiText2.__init__` given `root`: download if the directory
`root/dirname` is absent (the whole download-and-unpack step is an abstract
filesystem effect `dl`), then run `_get_data` on the resulting state.  Returns
the final filesystem state and the dataset (or the raised error). -/
def WikiText2.construct (dl : FileSystem → FileSystem) (fs : FileSystem)
    (root : String) : FileSystem × Except PyError (List (List String)) :=
  if fs.dirExists (pjoin root WikiText2.dirname) then
    (fs, WikiText2.getData fs root WikiText2.skip_empty wikiTrain wikiValid wikiTest)
  else
    let fs' := dl fs
    (fs', WikiText2.getData fs' root WikiText2.skip_empty wikiTrain wikiValid wikiTest)

/-- Constant `self.dirname` of `WikiText103`. -/
def WikiText103.dirname : String := "wikitext-103"

/-- Constant `self.skip_empty` as set (unconditionally) in
`WikiText103.__init__`. -/
def WikiText103.skip_empty : Bool := true

/-- Loop body of `WikiText103._get_data` (textually the same code as
`WikiText2._get_data` in the source, transcribed separately). -/
def wt103Loop (fs : FileSystem) (sk : Bool) (dir : String) :
    List String → List (List String) → Except PyError (List (List String))
  | [], dataset => .ok dataset
  | data :: rest, dataset =>
    match fs.readLines (pjoin dir data) with
    | .error e => .error e
    | .ok lines =>
      let samples :=
        if sk then
          lines.filterMap (fun line =>
            if pyStrip line = "" then none else some (pyStrip line))
        else lines.map pyStrip
      wt103Loop fs sk dir rest (dataset ++ [samples])

/-- Method `WikiText103._get_data`. -/
def WikiText103.getData (fs : FileSystem) (root : String) (sk : Bool)
    (train valid test : String) : Except PyError (List (List String)) :=
  wt103Loop fs sk (pjoin root WikiText103.dirname) [train, valid, test] []

/-- Method `WikiText103.__init__` given `root`, like `WikiText2.construct`. -/
def WikiText103.construct (dl : FileSystem → FileSystem) (fs : FileSystem)
    (root : String) : FileSystem × Except PyError (List (List String)) :=
  if fs.dirExists (pjoin root WikiText103.dirname) then
    (fs, WikiText103.getData fs root WikiText103.skip_empty wikiTrain wikiValid wikiTest)
  else
    let fs' := dl fs
    (fs', WikiText103.getData fs' root WikiText103.skip_empty wikiTrain wikiValid wikiTest)

/-- Constant `self.dirname` of `WikiTextKo`. -/
def WikiTextKo.dirname : String := "wikitext-ko"

/-- Expression `samples = list(filter(lambda x: len(x) > 0, text.split('\n')))`
from `WikiTextKo._get_data`. -/
def koSamples (text : String) : List String :=
  (pySplitNl text).filter (fun x => x.length > 0)

/-- Inner loop of `WikiTextKo._get_data` over the lines of one shard file:
each line is decoded as JSON, its `text` field split into samples, and the
samples appended to `dataset`. -/
def koLineLoop (J : JsonOracle) :
    List String → List String → Except PyError (List String)
  | [], dataset => .ok dataset
  | line :: rest, dataset =>
    match J.loadsText line with
    | .error e => .error e
    | .ok text => koLineLoop J rest (dataset ++ koSamples text)

/-- Outer loop of `WikiTextKo._get_data` over the sorted shard filenames. -/
def koFileLoop (fs : FileSystem) (J : JsonOracle) :
    List String → List String → Except PyError (List String)
  | [], dataset => .ok dataset
  | filename :: rest, dataset =>
    match fs.readLines filename with
    | .error e => .error e
    | .ok lines =>
      match koLineLoop J lines dataset with
      | .error e => .error e
      | .ok dataset' => koFileLoop fs J rest dataset'

/-- Method `WikiTextKo._get_data`: glob the shard files under `root/dirname`
and process them in `sorted(filenames)` order. -/
def WikiTextKo.getData (fs : FileSystem) (J : JsonOracle) (root : String) :
    Except PyError (List String) :=
  koFileLoop fs J (pySorted (fs.glob (pjoin root WikiTextKo.dirname))) []

/-- Method `WikiTextKo._download`: two `download_from_url` calls (abstracted
as the filesystem effect `fetch`) followed by `os.system(...)` running the
extraction tool (abstracted as `sys`, returning the new filesystem state and
the process exit status).  The exit status `(sys _).2` is discarded, mirroring
the source, which never inspects the return value of `os.system`. -/
def WikiTextKo.download (fetch : FileSystem → FileSystem)
    (sys : FileSystem → FileSystem × Int) (fs : FileSystem) : FileSystem :=
  (sys (fetch fs)).1

/-- Method `WikiTextKo.__init__` given `root`: download-and-extract if the
directory is absent, then `_get_data`. -/
def WikiTextKo.construct (fetch : FileSystem → FileSystem)
    (sys : FileSystem → FileSystem × Int) (J : JsonOracle) (fs : FileSystem)
    (root : String) : FileSystem × Except PyError (List String) :=
  if fs.dirExists (pjoin root WikiTextKo.dirname) then
    (fs, WikiTextKo.getData fs J root)
  else
    let fs' := WikiTextKo.download fetch sys fs
    (fs', WikiTextKo.getData fs' J root)

/-- Spec-side description of one fixed-split file's samples: strip every line,
keep them in order, and omit exactly the ones that are empty after
stripping. -/
def specStripSkip (lines : List String) : List String :=
  (lines.map pyStrip).filter (fun l => decide (l ≠ ""))

/-- Spec-side count of the lines of a file that are non-empty after
stripping. -/
def nonEmptyCount (lines : List String) : Nat :=
  (lines.filter (fun l => decide (pyStrip l ≠ ""))).length

/-- Spec-side description of the document-corpus processing of one shard file:
decode each line's `text` field, split it into sentences, drop the empty
strings, and concatenate the surviving sentences of all lines in order. -/
def koFileSpec (J : JsonOracle) : List String → Except PyError (List String)
  | [] => .ok []
  | line :: rest =>
    match J.loadsText line with
    | .error e => .error e
    | .ok text =>
      match koFileSpec J rest with
      | .error e => .error e
      | .ok out => .ok (koSamples text ++ out)

/-- Spec-side description of the document-corpus processing of a list of shard
files: the per-shard outputs concatenated in order. -/
def koSpecFiles (fs : FileSystem) (J : JsonOracle) :
    List String → Except PyError (List String)
  | [] => .ok []
  | n :: rest =>
    match fs.readLines n with
    | .error e => .error e
    | .ok lines =>
      match koFileSpec J lines with
      | .error e => .error e
      | .ok out =>
        match koSpecFiles fs J rest with
        | .error e => .error e
        | .ok outs => .ok (out ++ outs)

/-- Spec-side description of `WikiTextKo._get_data`: discover the shard files,
sort the filenames lexicographically, process each shard, and flatten. -/
def koSpec (fs : FileSystem) (J : JsonOracle) (root : String) :
    Except PyError (List String) :=
  koSpecFiles fs J (pySorted (fs.glob (pjoin root WikiTextKo.dirname)))

/-- Fixture filesystem: the spec's example files laid out for both fixed-split
loaders under root `.data`. -/
def fixFs : FileSystem where
  dirExists := fun _ => true
  readLines := fun p =>
    if p = ".data/wikitext-2/wiki.train.tokens" then .ok ["a", "", "b", ""]
    else if p = ".data/wikitext-2/wiki.valid.tokens" then .ok ["  foo bar  \n"]
    else if p = ".data/wikitext-2/wiki.test.tokens" then .ok []
    else if p = ".data/wikitext-103/wiki.train.tokens" then .ok ["a", "", "b", ""]
    else if p = ".data/wikitext-103/wiki.valid.tokens" then .ok ["  foo bar  \n"]
    else if p = ".data/wikitext-103/wiki.test.tokens" then .ok []
    else .error (.fileNotFound p)
  glob := fun _ => []

/-- Fixture JSON oracle for the spec's two-shard example. -/
def koJson : JsonOracle where
  loadsText := fun line =>
    if line = "\x7b\"text\":\"s1\\ns2\\n\"\x7d" then .ok "s1\ns2\n"
    else if line = "\x7b\"text\":\"s3\"\x7d" then .ok "s3"
    else .error (.jsonError line)

/-- Fixture filesystem for the spec's two-shard example; the glob enumerates
the two shards in reverse lexicographic order, so sorting matters. -/
def koFs : FileSystem where
  dirExists := fun _ => true
  readLines := fun p =>
    if p = ".data/wikitext-ko/AA/wiki_00" then .ok ["\x7b\"text\":\"s1\\ns2\\n\"\x7d"]
    else if p = ".data/wikitext-ko/AA/wiki_01" then .ok ["\x7b\"text\":\"s3\"\x7d"]
    else .error (.fileNotFound p)
  glob := fun d =>
    if d = ".data/wikitext-ko" then
      [".data/wikitext-ko/AA/wiki_01", ".data/wikitext-ko/AA/wiki_00"]
    else []

/-- Fixture filesystem identical to `koFs` except that its glob enumerates the
two shard filenames in the opposite order. -/
def permFsA : FileSystem where
  dirExists := fun _ => true
  readLines := koFs.readLines
  glob := fun d =>
    if d = ".data/wikitext-ko" then
      [".data/wikitext-ko/AA/wiki_00", ".data/wikitext-ko/AA/wiki_01"]
    else []

/-- Fixture JSON oracle for a document whose text has a whitespace-only
segment between newlines. -/
def wsJson : JsonOracle where
  loadsText := fun line =>
    if line = "\x7b\"text\":\"s1\\n \\ns2\"\x7d" then .ok "s1\n \ns2"
    else .error (.jsonError line)

/-- Fixture filesystem with one shard holding the whitespace-segment
document. -/
def wsFs : FileSystem where
  dirExists := fun _ => true
  readLines := fun p =>
    if p = ".data/wikitext-ko/AA/wiki_00" then .ok ["\x7b\"text\":\"s1\\n \\ns2\"\x7d"]
    else .error (.fileNotFound p)
  glob := fun d =>
    if d = ".data/wikitext-ko" then [".data/wikitext-ko/AA/wiki_00"] else []

/-- Fixture filesystem on which every read raises `fileNotFound`, with one
shard name discovered by the glob. -/
def errFs : FileSystem where
  dirExists := fun _ => true
  readLines := fun p => .error (.fileNotFound p)
  glob := fun _ => [".data/wikitext-ko/AA/wiki_00"]

/-- Fixture filesystem whose train file is readable but whose valid file
raises a decode error, and whose single shard holds a malformed JSON line. -/
def errFs2 : FileSystem where
  dirExists := fun _ => true
  readLines := fun p =>
    if p = ".data/wikitext-2/wiki.train.tokens" then .ok ["a"]
    else if p = ".data/wikitext-ko/AA/wiki_00" then .ok ["not json"]
    else .error (.decodeError p)
  glob := fun d =>
    if d = ".data/wikitext-ko" then [".data/wikitext-ko/AA/wiki_00"] else []

/-- Fixture JSON oracle that rejects every line. -/
def badJson : JsonOracle where
  loadsText := fun line => .error (.jsonError line)

/-- Fixture filesystem whose glob finds nothing anywhere. -/
def emptyGlobFs : FileSystem where
  dirExists := fun _ => true
  readLines := fun p => .error (.fileNotFound p)
  glob := fun _ => []

theorem pyLeChars_total (a : List Char) :
    ∀ b : List Char, pyLeChars a b = true ∨ pyLeChars b a = true := by
  induction a with
  | nil => intro b; left; rfl
  | cons x xs ih =>
    intro b
    cases b with
    | nil => right; rfl
    | cons y ys =>
      simp only [pyLeChars]
      rcases Nat.lt_trichotomy x.toNat y.toNat with h | h | h
      · left; simp [h]
      · have hx : ¬ x.toNat < y.toNat := by omega
        have hy : ¬ y.toNat < x.toNat := by omega
        simp only [if_neg hx, if_neg hy]
        exact ih ys
      · right; simp [h]

theorem pyLeChars_trans (a : List Char) :
    ∀ b c : List Char,
      pyLeChars a b = true → pyLeChars b c = true → pyLeChars a c = true := by
  induction a with
  | nil => intro b c _ _; rfl
  | cons x xs ih =>
    intro b c hab hbc
    cases b with
    | nil => simp [pyLeChars] at hab
    | cons y ys =>
      cases c with
      | nil => simp [pyLeChars] at hbc
      | cons z zs =>
        simp only [pyLeChars] at hab hbc ⊢
        split_ifs at hab hbc ⊢ <;>
          first
            | rfl
            | exact ih ys zs hab hbc
            | omega

theorem pyLeChars_antisymm (a : List Char) :
    ∀ b : List Char, pyLeChars a b = true → pyLeChars b a = true → a = b := by
  induction a with
  | nil =>
    intro b hab hba
    cases b with
    | nil => rfl
    | cons y ys => simp [pyLeChars] at hba
  | cons x xs ih =>
    intro b hab hba
    cases b with
    | nil => simp [pyLeChars] at hab
    | cons y ys =>
      simp only [pyLeChars] at hab hba
      by_cases h1 : x.toNat < y.toNat
      · by_cases h2 : y.toNat < x.toNat
        · omega
        · rw [if_neg h2, if_pos h1] at hba; cases hba
      · by_cases h2 : y.toNat < x.toNat
        · rw [if_neg h1, if_pos h2] at hab; cases hab
        · rw [if_neg h1, if_neg h2] at hab
          rw [if_neg h2, if_neg h1] at hba
          have hn : x.toNat = y.toNat := by omega
          simp only [Char.toNat] at hn
          have hxy : x = y := Char.ext (UInt32.ext hn)
          rw [hxy, ih ys hab hba]

theorem string_toList_inj {a b : String} (h : a.toList = b.toList) : a = b := by
  cases a with
  | mk da =>
    cases b with
    | mk db => exact congrArg String.mk h

theorem pySorted_perm (l : List String) : (pySorted l).Perm l :=
  List.perm_insertionSort _ l

theorem pySorted_sorted (l : List String) :
    List.Sorted (fun a b => pyLe a b = true) (pySorted l) := by
  haveI : IsTotal String (fun a b : String => pyLe a b = true) :=
    ⟨fun a b => pyLeChars_total a.toList b.toList⟩
  haveI : IsTrans String (fun a b : String => pyLe a b = true) :=
    ⟨fun a b c => pyLeChars_trans a.toList b.toList c.toList⟩
  exact List.sorted_insertionSort _ l

theorem pySorted_perm_eq {l₁ l₂ : List String} (h : l₁.Perm l₂) :
    pySorted l₁ = pySorted l₂ := by
  haveI : IsAntisymm String (fun a b : String => pyLe a b = true) :=
    ⟨fun a b hab hba => string_toList_inj (pyLeChars_antisymm _ _ hab hba)⟩
  exact List.eq_of_perm_of_sorted
    ((pySorted_perm l₁).trans (h.trans (pySorted_perm l₂).symm))
    (pySorted_sorted l₁) (pySorted_sorted l₂)

theorem wt2Loop_eq_wt103Loop (fs : FileSystem) (sk : Bool) (dir : String) :
    ∀ (names : List String) (acc : List (List String)),
      wt2Loop fs sk dir names acc = wt103Loop fs sk dir names acc := by
  intro names
  induction names with
  | nil => intro acc; rfl
  | cons n rest ih =>
    intro acc
    simp only [wt2Loop, wt103Loop]
    cases fs.readLines (pjoin dir n) with
    | error e => rfl
    | ok lines => exact ih _

theorem koFileLoop_congr (fs₁ fs₂ : FileSystem) (J : JsonOracle)
    (h : fs₁.readLines = fs₂.readLines) :
    ∀ (names : List String) (acc : List String),
      koFileLoop fs₁ J names acc = koFileLoop fs₂ J names acc := by
  intro names
  induction names with
  | nil => intro acc; rfl
  | cons n rest ih =>
    intro acc
    simp only [koFileLoop, h]
    cases hr : fs₂.readLines n with
    | error e => rfl
    | ok lines =>
      simp only []
      cases hk : koLineLoop J lines acc with
      | error e => simp [hk]
      | ok acc' => simp [hk, ih]

theorem stripSkip_eq (lines : List String) :
    lines.filterMap (fun line =>
      if pyStrip line = "" then none else some (pyStrip line))
      = specStripSkip lines := by
  induction lines with
  | nil => rfl
  | cons l ls ih =>
    by_cases h : pyStrip l = "" <;>
      simp [specStripSkip, List.filterMap_cons, List.filter_cons, h, ih]

theorem specStripSkip_length (lines : List String) :
    (specStripSkip lines).length = nonEmptyCount lines := by
  induction lines with
  | nil => rfl
  | cons l ls ih =>
    by_cases h : pyStrip l = "" <;>
      simp [specStripSkip, nonEmptyCount, List.filter_cons, h] at ih ⊢ <;>
      omega

theorem wt2_getData_true (fs : FileSystem) (root train valid test : String)
    (lt lv lw : List String)
    (ht : fs.readLines (pjoin (pjoin root WikiText2.dirname) train) = .ok lt)
    (hv : fs.readLines (pjoin (pjoin root WikiText2.dirname) valid) = .ok lv)
    (hw : fs.readLines (pjoin (pjoin root WikiText2.dirname) test) = .ok lw) :
    WikiText2.getData fs root true train valid test
      = .ok [specStripSkip lt, specStripSkip lv, specStripSkip lw] := by
  simp [WikiText2.getData, wt2Loop, ht, hv, hw, stripSkip_eq]

theorem wt2_getData_false (fs : FileSystem) (root train valid test : String)
    (lt lv lw : List String)
    (ht : fs.readLines (pjoin (pjoin root WikiText2.dirname) train) = .ok lt)
    (hv : fs.readLines (pjoin (pjoin root WikiText2.dirname) valid) = .ok lv)
    (hw : fs.readLines (pjoin (pjoin root WikiText2.dirname) test) = .ok lw) :
    WikiText2.getData fs root false train valid test
      = .ok [lt.map pyStrip, lv.map pyStrip, lw.map pyStrip] := by
  simp [WikiText2.getData, wt2Loop, ht, hv, hw]

theorem wt103_getData_true (fs : FileSystem) (root train valid test : String)
    (lt lv lw : List String)
    (ht : fs.readLines (pjoin (pjoin root WikiText103.dirname) train) = .ok lt)
    (hv : fs.readLines (pjoin (pjoin root WikiText103.dirname) valid) = .ok lv)
    (hw : fs.readLines (pjoin (pjoin root WikiText103.dirname) test) = .ok lw) :
    WikiText103.getData fs root true train valid test
      = .ok [specStripSkip lt, specStripSkip lv, specStripSkip lw] := by
  simp [WikiText103.getData, wt103Loop, ht, hv, hw, stripSkip_eq]

theorem wt103_getData_false (fs : FileSystem) (root train valid test : String)
    (lt lv lw : List String)
    (ht : fs.readLines (pjoin (pjoin root WikiText103.dirname) train) = .ok lt)
    (hv : fs.readLines (pjoin (pjoin root WikiText103.dirname) valid) = .ok lv)
    (hw : fs.readLines (pjoin (pjoin root WikiText103.dirname) test) = .ok lw) :
    WikiText103.getData fs root false train valid test
      = .ok [lt.map pyStrip, lv.map pyStrip, lw.map pyStrip] := by
  simp [WikiText103.getData, wt103Loop, ht, hv, hw]

theorem koLineLoop_spec (J : JsonOracle) (lines : List String) :
    ∀ acc : List String,
      koLineLoop J lines acc =
        match koFileSpec J lines with
        | .error e => .error e
        | .ok out => .ok (acc ++ out) := by
  induction lines with
  | nil => intro acc; simp [koLineLoop, koFileSpec]
  | cons l ls ih =>
    intro acc
    simp only [koLineLoop, koFileSpec]
    cases hjl : J.loadsText l with
    | error e => rfl
    | ok text =>
      simp only []
      rw [ih]
      cases hfs : koFileSpec J ls with
      | error e => rfl
      | ok out => simp

theorem koFileLoop_spec (fs : FileSystem) (J : JsonOracle) (names : List String) :
    ∀ acc : List String,
      koFileLoop fs J names acc =
        match koSpecFiles fs J names with
        | .error e => .error e
        | .ok out => .ok (acc ++ out) := by
  induction names with
  | nil => intro acc; simp [koFileLoop, koSpecFiles]
  | cons n rest ih =>
    intro acc
    simp only [koFileLoop, koSpecFiles]
    cases hr : fs.readLines n with
    | error e => rfl
    | ok lines =>
      simp only []
      rw [koLineLoop_spec]
      cases hf : koFileSpec J lines with
      | error e => rfl
      | ok out =>
        simp only []
        rw [ih]
        cases hs : koSpecFiles fs J rest with
        | error e => rfl
        | ok outs => simp

theorem ko_getData_eq_koSpec (fs : FileSystem) (J : JsonOracle) (root : String) :
    WikiTextKo.getData fs J root = koSpec fs J root := by
  unfold WikiTextKo.getData koSpec
  rw [koFileLoop_spec]
  cases koSpecFiles fs J (pySorted (fs.glob (pjoin root WikiTextKo.dirname))) with
  | error e => rfl
  | ok out => simp

theorem wt2Loop_true_no_empty (fs : FileSystem) (dir : String) :
    ∀ (names : List String) (acc dsout : List (List String)),
      wt2Loop fs true dir names acc = .ok dsout →
      (∀ s ∈ acc, "" ∉ s) → ∀ s ∈ dsout, "" ∉ s := by
  intro names
  induction names with
  | nil =>
    intro acc dsout h hacc
    simp only [wt2Loop] at h
    cases h
    exact hacc
  | cons n rest ih =>
    intro acc dsout h hacc
    simp only [wt2Loop] at h
    cases hr : fs.readLines (pjoin dir n) with
    | error e => rw [hr] at h; cases h
    | ok lines =>
      rw [hr] at h
      refine ih _ _ h ?_
      intro s hs
      rcases List.mem_append.mp hs with hs | hs
      · exact hacc s hs
      · rw [List.mem_singleton] at hs
        subst hs
        intro hmem
        rcases List.mem_filterMap.mp hmem with ⟨line, _, hline⟩
        by_cases hl : pyStrip line = ""
        · rw [if_pos hl] at hline; cases hline
        · rw [if_neg hl] at hline
          injection hline with hline
          exact hl hline

theorem wt2Loop_congr_paths (fs : FileSystem) (sk : Bool) (dir₁ dir₂ : String) :
    ∀ (names : List String) (acc : List (List String)),
      (∀ n ∈ names, fs.readLines (pjoin dir₁ n) = fs.readLines (pjoin dir₂ n)) →
      wt2Loop fs sk dir₁ names acc = wt2Loop fs sk dir₂ names acc := by
  intro names
  induction names with
  | nil => intro acc _; rfl
  | cons n rest ih =>
    intro acc h
    simp only [wt2Loop, h n (List.mem_cons_self n rest)]
    cases hr : fs.readLines (pjoin dir₂ n) with
    | error e => rfl
    | ok lines =>
      simp only []
      exact ih _ (fun m hm => h m (List.mem_cons_of_mem n hm))

/-- C1: for the fixed-split loaders (WikiText2, WikiText103), every stored
sample equals its source line with leading and trailing whitespace stripped;
when `skip_empty` is enabled, exactly those lines that are empty after
stripping are omitted, and when it is disabled every stripped line is kept, in
source order. -/
theorem C1_fixed_split_strip_and_skip
    (fs : FileSystem) (root train valid test : String) (lt lv lw : List String)
    (h2t : fs.readLines (pjoin (pjoin root WikiText2.dirname) train) = .ok lt)
    (h2v : fs.readLines (pjoin (pjoin root WikiText2.dirname) valid) = .ok lv)
    (h2w : fs.readLines (pjoin (pjoin root WikiText2.dirname) test) = .ok lw)
    (h3t : fs.readLines (pjoin (pjoin root WikiText103.dirname) train) = .ok lt)
    (h3v : fs.readLines (pjoin (pjoin root WikiText103.dirname) valid) = .ok lv)
    (h3w : fs.readLines (pjoin (pjoin root WikiText103.dirname) test) = .ok lw) :
    WikiText2.getData fs root true train valid test
        = .ok [specStripSkip lt, specStripSkip lv, specStripSkip lw]
      ∧ WikiText2.getData fs root false train valid test
        = .ok [lt.map pyStrip, lv.map pyStrip, lw.map pyStrip]
      ∧ WikiText103.getData fs root true train valid test
        = .ok [specStripSkip lt, specStripSkip lv, specStripSkip lw]
      ∧ WikiText103.getData fs root false train valid test
        = .ok [lt.map pyStrip, lv.map pyStrip, lw.map pyStrip] :=
  ⟨wt2_getData_true fs root train valid test lt lv lw h2t h2v h2w,
   wt2_getData_false fs root train valid test lt lv lw h2t h2v h2w,
   wt103_getData_true fs root train valid test lt lv lw h3t h3v h3w,
   wt103_getData_false fs root train valid test lt lv lw h3t h3v h3w⟩

theorem C1_fixed_split_strip_and_skip_witness :
    fixFs.readLines ".data/wikitext-2/wiki.train.tokens" = .ok ["a", "", "b", ""]
      ∧ WikiText2.getData fixFs ".data" true wikiTrain wikiValid wikiTest
          = .ok [["a", "b"], ["foo bar"], []]
      ∧ WikiText2.getData fixFs ".data" false wikiTrain wikiValid wikiTest
          = .ok [["a", "", "b", ""], ["foo bar"], []] := by
  have h := C1_fixed_split_strip_and_skip fixFs ".data" wikiTrain wikiValid wikiTest
    ["a", "", "b", ""] ["  foo bar  \n"] []
    (by decide) (by decide) (by decide) (by decide) (by decide) (by decide)
  refine ⟨by decide, ?_, ?_⟩
  · rw [h.1]; decide
  · rw [h.2.1]; decide

/-- C2: the document-corpus loader `WikiTextKo._get_data` processes the shard
files in lexicographically sorted filename order; each line of each shard is
decoded as JSON, its "text" field split on newlines, the empty strings
removed, and the surviving pieces appended in order to one flat sequence; on
the spec's two-shard example the result is ["s1","s2","s3"]. -/
theorem C2_ko_sorted_flatten :
    (∀ (fs : FileSystem) (J : JsonOracle) (root : String),
        WikiTextKo.getData fs J root = koSpec fs J root)
    ∧ WikiTextKo.getData koFs koJson ".data" = .ok ["s1", "s2", "s3"] :=
  ⟨ko_getData_eq_koSpec, by decide⟩

/-- C3: each fixed-split loader returns exactly three sequences in the fixed
order train, valid, test; each sequence's length is the count of lines
non-empty after stripping when empty-skip is enabled, and the total line count
when it is disabled. -/
theorem C3_three_splits_lengths
    (fs : FileSystem) (root train valid test : String) (lt lv lw : List String)
    (h2t : fs.readLines (pjoin (pjoin root WikiText2.dirname) train) = .ok lt)
    (h2v : fs.readLines (pjoin (pjoin root WikiText2.dirname) valid) = .ok lv)
    (h2w : fs.readLines (pjoin (pjoin root WikiText2.dirname) test) = .ok lw)
    (h3t : fs.readLines (pjoin (pjoin root WikiText103.dirname) train) = .ok lt)
    (h3v : fs.readLines (pjoin (pjoin root WikiText103.dirname) valid) = .ok lv)
    (h3w : fs.readLines (pjoin (pjoin root WikiText103.dirname) test) = .ok lw) :
    (∃ ds, WikiText2.getData fs root true train valid test = .ok ds
      ∧ ds.length = 3
      ∧ ds.map List.length = [nonEmptyCount lt, nonEmptyCount lv, nonEmptyCount lw])
    ∧ (∃ ds, WikiText2.getData fs root false train valid test = .ok ds
      ∧ ds.length = 3
      ∧ ds.map List.length = [lt.length, lv.length, lw.length])
    ∧ (∃ ds, WikiText103.getData fs root true train valid test = .ok ds
      ∧ ds.length = 3
      ∧ ds.map List.length = [nonEmptyCount lt, nonEmptyCount lv, nonEmptyCount lw])
    ∧ (∃ ds, WikiText103.getData fs root false train valid test = .ok ds
      ∧ ds.length = 3
      ∧ ds.map List.length = [lt.length, lv.length, lw.length]) := by
  refine
    ⟨⟨_, wt2_getData_true fs root train valid test lt lv lw h2t h2v h2w, rfl, ?_⟩,
     ⟨_, wt2_getData_false fs root train valid test lt lv lw h2t h2v h2w, rfl, ?_⟩,
     ⟨_, wt103_getData_true fs root train valid test lt lv lw h3t h3v h3w, rfl, ?_⟩,
     ⟨_, wt103_getData_false fs root train valid test lt lv lw h3t h3v h3w, rfl, ?_⟩⟩ <;>
    simp [specStripSkip_length]

theorem C3_three_splits_lengths_witness :
    fixFs.readLines ".data/wikitext-2/wiki.valid.tokens" = .ok ["  foo bar  \n"]
      ∧ (∃ ds, WikiText2.getData fixFs ".data" true wikiTrain wikiValid wikiTest = .ok ds
        ∧ ds.length = 3
        ∧ ds.map List.length
            = [nonEmptyCount ["a", "", "b", ""], nonEmptyCount ["  foo bar  \n"],
               nonEmptyCount []]) := by
  have h := C3_three_splits_lengths fixFs ".data" wikiTrain wikiValid wikiTest
    ["a", "", "b", ""] ["  foo bar  \n"] []
    (by decide) (by decide) (by decide) (by decide) (by decide) (by decide)
  exact ⟨by decide, h.1⟩

/-- C4: in WikiTextKo the exit status of the external extraction command is
never checked (the download result does not depend on it), and when the
recursive glob matches zero files `_get_data` returns an empty dataset rather
than raising: no code path turns an empty glob into an error. -/
theorem C4_exit_unchecked_empty_glob_ok :
    (∀ (fetch eff : FileSystem → FileSystem) (c₁ c₂ : Int) (fs : FileSystem),
        WikiTextKo.download fetch (fun s => (eff s, c₁)) fs
          = WikiTextKo.download fetch (fun s => (eff s, c₂)) fs)
    ∧ (∀ (fs : FileSystem) (J : JsonOracle) (root : String),
        fs.glob (pjoin root WikiTextKo.dirname) = [] →
        WikiTextKo.getData fs J root = .ok []) := by
  constructor
  · intro fetch eff c₁ c₂ fs; rfl
  · intro fs J root h
    unfold WikiTextKo.getData
    rw [h]
    rfl

theorem C4_exit_unchecked_empty_glob_ok_witness :
    emptyGlobFs.glob (pjoin ".data" WikiTextKo.dirname) = []
      ∧ WikiTextKo.getData emptyGlobFs koJson ".data" = .ok []
      ∧ WikiTextKo.download id (fun s => (id s, 0)) emptyGlobFs
          = WikiTextKo.download id (fun s => (id s, 1)) emptyGlobFs :=
  ⟨rfl, C4_exit_unchecked_empty_glob_ok.2 emptyGlobFs koJson ".data" rfl,
   C4_exit_unchecked_empty_glob_ok.1 id id 0 1 emptyGlobFs⟩

/-- C5: the output of `WikiTextKo._get_data` depends on the glob only through
the sorted filename list: two filesystems with the same file contents whose
glob enumerations are permutations of each other yield identical outputs. -/
theorem C5_enumeration_order_irrelevant
    (fs₁ fs₂ : FileSystem) (J : JsonOracle) (root : String)
    (hr : fs₁.readLines = fs₂.readLines)
    (hg : (fs₁.glob (pjoin root WikiTextKo.dirname)).Perm
            (fs₂.glob (pjoin root WikiTextKo.dirname))) :
    WikiTextKo.getData fs₁ J root = WikiTextKo.getData fs₂ J root := by
  unfold WikiTextKo.getData
  rw [pySorted_perm_eq hg]
  exact koFileLoop_congr fs₁ fs₂ J hr _ _

theorem C5_enumeration_order_irrelevant_witness :
    koFs.readLines = permFsA.readLines
      ∧ (koFs.glob (pjoin ".data" WikiTextKo.dirname)).Perm
          (permFsA.glob (pjoin ".data" WikiTextKo.dirname))
      ∧ WikiTextKo.getData koFs koJson ".data"
          = WikiTextKo.getData permFsA koJson ".data" :=
  ⟨rfl, by decide,
   C5_enumeration_order_irrelevant koFs permFsA koJson ".data" rfl (by decide)⟩

/-- C6: for every loader, constructing against an already-existing directory
performs no download (the returned filesystem state is unchanged and the
download effect is never applied), and a second construction yields results
identical to the first. -/
theorem C6_no_redownload_idempotent
    (dl dl103 fetch : FileSystem → FileSystem)
    (sys : FileSystem → FileSystem × Int) (J : JsonOracle)
    (fs : FileSystem) (root : String)
    (h2 : fs.dirExists (pjoin root WikiText2.dirname) = true)
    (h103 : fs.dirExists (pjoin root WikiText103.dirname) = true)
    (hko : fs.dirExists (pjoin root WikiTextKo.dirname) = true) :
    (WikiText2.construct dl fs root
        = (fs, WikiText2.getData fs root WikiText2.skip_empty wikiTrain wikiValid wikiTest)
      ∧ WikiText2.construct dl (WikiText2.construct dl fs root).1 root
        = WikiText2.construct dl fs root)
    ∧ (WikiText103.construct dl103 fs root
        = (fs, WikiText103.getData fs root WikiText103.skip_empty wikiTrain wikiValid wikiTest)
      ∧ WikiText103.construct dl103 (WikiText103.construct dl103 fs root).1 root
        = WikiText103.construct dl103 fs root)
    ∧ (WikiTextKo.construct fetch sys J fs root = (fs, WikiTextKo.getData fs J root)
      ∧ WikiTextKo.construct fetch sys J (WikiTextKo.construct fetch sys J fs root).1 root
        = WikiTextKo.construct fetch sys J fs root) := by
  have e2 : WikiText2.construct dl fs root
      = (fs, WikiText2.getData fs root WikiText2.skip_empty wikiTrain wikiValid wikiTest) := by
    unfold WikiText2.construct
    rw [if_pos h2]
  have e103 : WikiText103.construct dl103 fs root
      = (fs, WikiText103.getData fs root WikiText103.skip_empty wikiTrain wikiValid wikiTest) := by
    unfold WikiText103.construct
    rw [if_pos h103]
  have eko : WikiTextKo.construct fetch sys J fs root
      = (fs, WikiTextKo.getData fs J root) := by
    unfold WikiTextKo.construct
    rw [if_pos hko]
  exact ⟨⟨e2, by rw [e2]; exact e2⟩, ⟨e103, by rw [e103]; exact e103⟩,
    ⟨eko, by rw [eko]; exact eko⟩⟩

theorem C6_no_redownload_idempotent_witness :
    fixFs.dirExists (pjoin ".data" WikiText2.dirname) = true
      ∧ WikiText2.construct id fixFs ".data"
          = (fixFs,
             WikiText2.getData fixFs ".data" WikiText2.skip_empty wikiTrain wikiValid wikiTest)
      ∧ WikiText2.construct id (WikiText2.construct id fixFs ".data").1 ".data"
          = WikiText2.construct id fixFs ".data" := by
  have h := C6_no_redownload_idempotent id id id (fun s => (s, 0)) koJson fixFs ".data"
    (by decide) (by decide) (by decide)
  exact ⟨by decide, h.1.1, h.1.2⟩

/-- C7: WikiText2 and WikiText103 implement the same parsing function: when
the train/valid/test files under the two loaders' directory names have
identical contents, the two `_get_data` methods return equal datasets. -/
theorem C7_wt2_wt103_same_parse
    (fs : FileSystem) (root : String) (sk : Bool) (train valid test : String)
    (ht : fs.readLines (pjoin (pjoin root WikiText2.dirname) train)
        = fs.readLines (pjoin (pjoin root WikiText103.dirname) train))
    (hv : fs.readLines (pjoin (pjoin root WikiText2.dirname) valid)
        = fs.readLines (pjoin (pjoin root WikiText103.dirname) valid))
    (hw : fs.readLines (pjoin (pjoin root WikiText2.dirname) test)
        = fs.readLines (pjoin (pjoin root WikiText103.dirname) test)) :
    WikiText2.getData fs root sk train valid test
      = WikiText103.getData fs root sk train valid test := by
  unfold WikiText2.getData WikiText103.getData
  rw [← wt2Loop_eq_wt103Loop]
  refine wt2Loop_congr_paths fs sk _ _ [train, valid, test] [] ?_
  intro n hn
  rcases hn with _ | ⟨_, hn⟩
  · exact ht
  · rcases hn with _ | ⟨_, hn⟩
    · exact hv
    · rcases hn with _ | ⟨_, hn⟩
      · exact hw
      · cases hn

theorem C7_wt2_wt103_same_parse_witness :
    fixFs.readLines (pjoin (pjoin ".data" WikiText2.dirname) wikiTrain)
        = fixFs.readLines (pjoin (pjoin ".data" WikiText103.dirname) wikiTrain)
      ∧ WikiText2.getData fixFs ".data" true wikiTrain wikiValid wikiTest
        = WikiText103.getData fixFs ".data" true wikiTrain wikiValid wikiTest :=
  ⟨by decide,
   C7_wt2_wt103_same_parse fixFs ".data" true wikiTrain wikiValid wikiTest
     (by decide) (by decide) (by decide)⟩

/-- C8: no loader catches any failure: a failing file read (missing file or
decode error) or a failing JSON decode surfaces the underlying error directly
as the result, with no handler, fallback, or substitute value. -/
theorem C8_errors_propagate :
    (∀ (fs : FileSystem) (root : String) (sk : Bool) (train valid test : String)
       (e : PyError),
        fs.readLines (pjoin (pjoin root WikiText2.dirname) train) = .error e →
        WikiText2.getData fs root sk train valid test = .error e)
    ∧ (∀ (fs : FileSystem) (root : String) (sk : Bool) (train valid test : String)
         (lt : List String) (e : PyError),
        fs.readLines (pjoin (pjoin root WikiText2.dirname) train) = .ok lt →
        fs.readLines (pjoin (pjoin root WikiText2.dirname) valid) = .error e →
        WikiText2.getData fs root sk train valid test = .error e)
    ∧ (∀ (fs : FileSystem) (root : String) (sk : Bool) (train valid test : String)
         (e : PyError),
        fs.readLines (pjoin (pjoin root WikiText103.dirname) train) = .error e →
        WikiText103.getData fs root sk train valid test = .error e)
    ∧ (∀ (fs : FileSystem) (J : JsonOracle) (root n : String) (ns : List String)
         (e : PyError),
        pySorted (fs.glob (pjoin root WikiTextKo.dirname)) = n :: ns →
        fs.readLines n = .error e →
        WikiTextKo.getData fs J root = .error e)
    ∧ (∀ (fs : FileSystem) (J : JsonOracle) (root n line : String)
         (ns rest : List String) (e : PyError),
        pySorted (fs.glob (pjoin root WikiTextKo.dirname)) = n :: ns →
        fs.readLines n = .ok (line :: rest) →
        J.loadsText line = .error e →
        WikiTextKo.getData fs J root = .error e) := by
  refine ⟨?_, ?_, ?_, ?_, ?_⟩
  · intro fs root sk train valid test e h
    simp [WikiText2.getData, wt2Loop, h]
  · intro fs root sk train valid test lt e h1 h2
    simp [WikiText2.getData, wt2Loop, h1, h2]
  · intro fs root sk train valid test e h
    simp [WikiText103.getData, wt103Loop, h]
  · intro fs J root n ns e hs h
    unfold WikiTextKo.getData
    rw [hs]
    simp [koFileLoop, h]
  · intro fs J root n line ns rest e hs h1 h2
    unfold WikiTextKo.getData
    rw [hs]
    simp [koFileLoop, h1, koLineLoop, h2]

theorem C8_errors_propagate_witness :
    errFs.readLines (pjoin (pjoin ".data" WikiText2.dirname) wikiTrain)
        = .error (.fileNotFound ".data/wikitext-2/wiki.train.tokens")
      ∧ WikiText2.getData errFs ".data" true wikiTrain wikiValid wikiTest
        = .error (.fileNotFound ".data/wikitext-2/wiki.train.tokens")
      ∧ WikiText2.getData errFs2 ".data" true wikiTrain wikiValid wikiTest
        = .error (.decodeError ".data/wikitext-2/wiki.valid.tokens")
      ∧ WikiTextKo.getData errFs koJson ".data"
        = .error (.fileNotFound ".data/wikitext-ko/AA/wiki_00")
      ∧ WikiTextKo.getData errFs2 badJson ".data" = .error (.jsonError "not json") := by
  refine ⟨by decide, ?_, ?_, ?_, ?_⟩
  · exact C8_errors_propagate.1 errFs ".data" true wikiTrain wikiValid wikiTest
      (.fileNotFound ".data/wikitext-2/wiki.train.tokens") (by decide)
  · exact C8_errors_propagate.2.1 errFs2 ".data" true wikiTrain wikiValid wikiTest
      ["a"] (.decodeError ".data/wikitext-2/wiki.valid.tokens") (by decide) (by decide)
  · exact C8_errors_propagate.2.2.2.1 errFs koJson ".data"
      ".data/wikitext-ko/AA/wiki_00" []
      (.fileNotFound ".data/wikitext-ko/AA/wiki_00") (by decide) (by decide)
  · exact C8_errors_propagate.2.2.2.2 errFs2 badJson ".data"
      ".data/wikitext-ko/AA/wiki_00" "not json" [] []
      (.jsonError "not json") (by decide) (by decide) (by decide)

/-- C9: through the public constructors, `skip_empty` is unconditionally True
for WikiText2 and WikiText103, so no split of a successfully constructed
fixed-split loader ever contains the empty string. -/
theorem C9_skip_empty_always_true_no_empty_sample :
    WikiText2.skip_empty = true
      ∧ WikiText103.skip_empty = true
      ∧ (∀ (dl : FileSystem → FileSystem) (fs : FileSystem) (root : String)
           (ds : List (List String)),
          (WikiText2.construct dl fs root).2 = .ok ds → ∀ s ∈ ds, "" ∉ s)
      ∧ (∀ (dl : FileSystem → FileSystem) (fs : FileSystem) (root : String)
           (ds : List (List String)),
          (WikiText103.construct dl fs root).2 = .ok ds → ∀ s ∈ ds, "" ∉ s) := by
  refine ⟨rfl, rfl, ?_, ?_⟩
  · intro dl fs root ds h
    unfold WikiText2.construct at h
    by_cases hd : fs.dirExists (pjoin root WikiText2.dirname) = true
    · rw [if_pos hd] at h
      simp only [WikiText2.getData, WikiText2.skip_empty] at h
      exact wt2Loop_true_no_empty fs _ _ _ _ h (by simp)
    · rw [if_neg hd] at h
      simp only [WikiText2.getData, WikiText2.skip_empty] at h
      exact wt2Loop_true_no_empty (dl fs) _ _ _ _ h (by simp)
  · intro dl fs root ds h
    unfold WikiText103.construct at h
    by_cases hd : fs.dirExists (pjoin root WikiText103.dirname) = true
    · rw [if_pos hd] at h
      simp only [WikiText103.getData, WikiText103.skip_empty] at h
      rw [← wt2Loop_eq_wt103Loop] at h
      exact wt2Loop_true_no_empty fs _ _ _ _ h (by simp)
    · rw [if_neg hd] at h
      simp only [WikiText103.getData, WikiText103.skip_empty] at h
      rw [← wt2Loop_eq_wt103Loop] at h
      exact wt2Loop_true_no_empty (dl fs) _ _ _ _ h (by simp)

theorem C9_skip_empty_always_true_no_empty_sample_witness :
    (WikiText2.construct id fixFs ".data").2 = .ok [["a", "b"], ["foo bar"], []]
      ∧ "" ∉ (["a", "b"] : List String) := by
  refine ⟨by decide, ?_⟩
  exact C9_skip_empty_always_true_no_empty_sample.2.2.1 id fixFs ".data"
    [["a", "b"], ["foo bar"], []] (by decide) ["a", "b"] (by decide)

/-- C10: unlike the fixed-split loaders, WikiTextKo does not strip whitespace
from samples: its filter removes only zero-length pieces of the newline-split
text, so a whitespace-only segment between newlines is kept verbatim. -/
theorem C10_ko_keeps_whitespace_verbatim :
    (∀ (text x : String), x ∈ koSamples text ↔ (x ∈ pySplitNl text ∧ 0 < x.length))
      ∧ koSamples "s1\n \ns2" = ["s1", " ", "s2"]
      ∧ pyStrip " " = ""
      ∧ WikiTextKo.getData wsFs wsJson ".data" = .ok ["s1", " ", "s2"] := by
  refine ⟨?_, by decide, by decide, by decide⟩
  intro text x
  simp [koSamples, List.mem_filter]

theorem C10_ko_keeps_whitespace_verbatim_witness :
    " " ∈ koSamples "s1\n \ns2" :=
  (C10_ko_keeps_whitespace_verbatim.1 "s1\n \ns2" " ").mpr ⟨by decide, by decide⟩
